import Mathlib

/-!
# User-management API (`app.js`, `models/user.js`)

A shallow embedding of the Express application in `src/app.js` and of the
Mongoose schema in `src/models/user.js`, followed by the properties proved about
them.

Conventions of the embedding.

* Request bodies carry the five fields the handlers destructure.  A field is
  `none` when the key is absent (`undefined` in JavaScript); string fields hold a
  `String`, `age` holds an integer.  JavaScript truthiness of such a field is
  `truthyS` / `truthyN`.
* The Mongo collection is a list of records in insertion order, together with
  the counter from which fresh `_id`s are drawn, a script of injected store
  faults (an entry `some detail` makes the next store operation throw an error
  carrying `detail`) and a log of the effects performed so far.
* `bcrypt` and the token signature are parameters (`Crypto`); the salt drawn by
  `bcrypt.hash` and the clock read by `jwt.sign` are explicit inputs.
-/

namespace UserApi

/-! ## JavaScript values of the request body -/

/-- Truthiness of a string-valued body field: absent and `""` are falsy. -/
def truthyS : Option String → Bool
  | none => false
  | some s => s != ""

/-- Truthiness of a number-valued body field: absent and `0` are falsy. -/
def truthyN : Option Int → Bool
  | none => false
  | some n => n != 0

/-- The JavaScript expression `a || b` where `a` is a string-valued field and
`b` a string. -/
def orS (a : Option String) (b : String) : String :=
  match a with
  | some s => if s != "" then s else b
  | none => b

/-- The JavaScript expression `a || b` where `a` is a number-valued field and
`b` a number. -/
def orN (a : Option Int) (b : Int) : Int :=
  match a with
  | some n => if n != 0 then n else b
  | none => b

/-! ## The regular expression of `isValidEmail` -/

/-- The class `\s` of ECMAScript regular expressions: white space and line
terminators. -/
def isJsSpace (c : Char) : Bool :=
  let n := c.toNat
  n == 0x09 || n == 0x0A || n == 0x0B || n == 0x0C || n == 0x0D || n == 0x20 ||
  n == 0xA0 || n == 0x1680 || (0x2000 ≤ n && n ≤ 0x200A) || n == 0x2028 ||
  n == 0x2029 || n == 0x202F || n == 0x205F || n == 0x3000 || n == 0xFEFF

/-- The character class `[^\s@]`. -/
def notSpaceAt (c : Char) : Bool := !isJsSpace c && c != '@'

/-- One item of an anchored pattern: a single character of a class, or one or
more characters of a class (`+`). -/
inductive Item where
  | one (p : Char → Bool)
  | many1 (p : Char → Bool)

/-- Whether the whole input matches the sequence of items (`^ ... $`).  A `+`
item may stop after any character it accepted, as backtracking allows. -/
def matchItems : List Item → List Char → Bool
  | [], [] => true
  | [], _ :: _ => false
  | _ :: _, [] => false
  | Item.one p :: rest, c :: cs => p c && matchItems rest cs
  | Item.many1 p :: rest, c :: cs =>
      p c && (matchItems rest cs || matchItems (Item.many1 p :: rest) cs)

/-- The pattern `/^[^\s@]+@[^\s@]+\.[^\s@]+$/`. -/
def emailRegex : List Item :=
  [Item.many1 notSpaceAt, Item.one (fun c => c == '@'), Item.many1 notSpaceAt,
   Item.one (fun c => c == '.'), Item.many1 notSpaceAt]

/-- The helper `isValidEmail` of `app.js`: `emailRegex.test(email)`. -/
def isValidEmail (email : String) : Bool :=
  matchItems emailRegex email.toList

/-- The test `isValidEmail(email)` on a body field: an absent field is
`undefined`, which `RegExp.prototype.test` reads as the text `undefined`. -/
def isValidEmailField : Option String → Bool
  | some s => isValidEmail s
  | none => isValidEmail "undefined"

/-! ## The schema of `models/user.js` -/

/-- The paths of `UserSchema`. -/
inductive Field where
  | name | email | password | age | role
deriving DecidableEq, Repr

/-- A record of the `users` collection. -/
structure User where
  id : Nat
  name : String
  email : String
  password : String
  age : Int
  role : String
deriving DecidableEq, Repr

/-- A Mongoose document in memory: the values of its paths (`none` is
`undefined`), whether it was built by `new User(...)` and not yet stored, and the
paths `isModified` reports. -/
structure Doc where
  id : Nat
  name : Option String
  email : Option String
  password : Option String
  age : Option Int
  role : Option String
  isNew : Bool
  modified : List Field
deriving DecidableEq, Repr

/-- The method `isModified(path)` of a document. -/
def Doc.isModified (d : Doc) (f : Field) : Bool := d.modified.contains f

/-- The values allowed by `role.enum`. -/
def roleEnum : List String := ["user", "admin", "owner"]

/-- The value of `role.default`. -/
def roleDefault : String := "user"

/-- The paths a constructor argument defines. -/
def definedPaths (name email password : Option String) (age : Option Int)
    (role : Option String) : List Field :=
  (if name.isSome then [Field.name] else []) ++
  (if email.isSome then [Field.email] else []) ++
  (if password.isSome then [Field.password] else []) ++
  (if age.isSome then [Field.age] else []) ++
  (if role.isSome then [Field.role] else [])

/-- The constructor `new User({...})`: the given paths are set and count as
modified, an undefined `role` takes the schema default, and the document carries
the fresh `_id` it was given. -/
def newUser (id : Nat) (name email password : Option String) (age : Option Int)
    (role : Option String) : Doc :=
  { id := id, name := name, email := email, password := password, age := age,
    role := some (role.getD roleDefault), isNew := true,
    modified := definedPaths name email password age role }

/-- The document Mongoose builds from a stored record (`findById`, `findOne`). -/
def User.toDoc (u : User) : Doc :=
  { id := u.id, name := some u.name, email := some u.email, password := some u.password,
    age := some u.age, role := some u.role, isNew := false, modified := [] }

/-- The record a validated document is stored as, which is also what
`res.json(user)` serialises. -/
def Doc.toUser (d : Doc) : User :=
  { id := d.id, name := d.name.getD "", email := d.email.getD "",
    password := d.password.getD "", age := d.age.getD 0, role := d.role.getD roleDefault }

/-- The assignment `user.name = v`: the path becomes modified when the value
changes. -/
def Doc.setName (d : Doc) (v : String) : Doc :=
  if d.name = some v then d else { d with name := some v, modified := Field.name :: d.modified }

/-- The assignment `user.email = v`. -/
def Doc.setEmail (d : Doc) (v : String) : Doc :=
  if d.email = some v then d else { d with email := some v, modified := Field.email :: d.modified }

/-- The assignment `user.age = v`. -/
def Doc.setAge (d : Doc) (v : Int) : Doc :=
  if d.age = some v then d else { d with age := some v, modified := Field.age :: d.modified }

/-- The `required: true` validator of a `String` path: the value is a non-empty
string. -/
def requiredString : Option String → Bool
  | some s => s != ""
  | none => false

/-- Schema validation, run by `save()` before the `pre('save')` hook: `name`,
`email`, `password` and `age` are required and `role` is one of the enum values.
The result is the message of the validation error, if any. -/
def validate (d : Doc) : Option String :=
  if !requiredString d.name then some "Path name is required."
  else if !requiredString d.email then some "Path email is required."
  else if !requiredString d.password then some "Path password is required."
  else if d.age.isNone then some "Path age is required."
  else match d.role with
    | some r => if roleEnum.contains r then none else some "role is not a valid enum value."
    | none => none

/-- The cryptographic primitives the application calls.  `hash data cost salt` is
`bcrypt.hash(data, cost)` when the generator draws `salt`; `compare data hash` is
`bcrypt.compare`; `mac secret id role iat exp` is the signature `jsonwebtoken`
computes over a payload. -/
structure Crypto where
  hash : String → Nat → Nat → String
  compare : String → String → Bool
  mac : String → Nat → String → Nat → Nat → Nat

/-- The configuration read from `process.env`. -/
structure Config where
  JWT_SECRET : String
  JWT_EXPIRES_IN : Nat

/-- A signed token: the payload `{ id, role }`, the times `iat` and `exp`, and
the signature. -/
structure Token where
  id : Nat
  role : String
  iat : Nat
  exp : Nat
  sig : Nat
deriving DecidableEq, Repr

/-- The call `jwt.sign({ id, role }, secret, { expiresIn })` at time `now`. -/
def jwtSign (C : Crypto) (id : Nat) (role : String) (secret : String) (expiresIn : Nat)
    (now : Nat) : Token :=
  { id := id, role := role, iat := now, exp := now + expiresIn,
    sig := C.mac secret id role now (now + expiresIn) }

/-- What the application did to its collaborators. -/
inductive Effect where
  | find
  | findById (id : Nat)
  | findOne (email : String)
  | insert (id : Nat)
  | update (id : Nat)
  | deleteOne (id : Nat)
  | hash (data : String)
  | compare (data : String) (hashed : String)
deriving DecidableEq, Repr

/-- The state the handlers act on: the collection in insertion order, the next
fresh `_id`, the pending store faults and the log of effects. -/
structure World where
  users : List User
  nextId : Nat
  faults : List (Option String)
  log : List Effect
deriving DecidableEq, Repr

/-- An empty collection with the given fault script. -/
def World.initial (faults : List (Option String)) : World :=
  { users := [], nextId := 0, faults := faults, log := [] }

/-- One round trip to the store: the operation is logged and the next entry of
the fault script, if any, tells whether it throws. -/
def World.contact (w : World) (e : Effect) : Option String × World :=
  match w.faults with
  | [] => (none, { w with log := w.log ++ [e] })
  | f :: fs => (f, { w with faults := fs, log := w.log ++ [e] })

/-- Drawing the `_id` of a new document. -/
def World.freshId (w : World) : Nat × World :=
  (w.nextId, { w with nextId := w.nextId + 1 })

/-- The query `User.find()`. -/
def find (w : World) : Except String (List User) × World :=
  match w.contact Effect.find with
  | (some err, w1) => (Except.error err, w1)
  | (none, w1) => (Except.ok w1.users, w1)

/-- The query `User.findById(id)`. -/
def findById (id : Nat) (w : World) : Except String (Option User) × World :=
  match w.contact (Effect.findById id) with
  | (some err, w1) => (Except.error err, w1)
  | (none, w1) => (Except.ok (w1.users.find? (fun u => u.id == id)), w1)

/-- The query `User.findOne({ email })`. -/
def findOne (email : String) (w : World) : Except String (Option User) × World :=
  match w.contact (Effect.findOne email) with
  | (some err, w1) => (Except.error err, w1)
  | (none, w1) => (Except.ok (w1.users.find? (fun u => u.email == email)), w1)

/-- Removing the first record with the given `_id`. -/
def eraseId (id : Nat) : List User → List User
  | [] => []
  | u :: us => if u.id == id then us else u :: eraseId id us

/-- The command `User.deleteOne({ _id: id })`; the result is `deletedCount`. -/
def deleteOne (id : Nat) (w : World) : Except String Nat × World :=
  match w.contact (Effect.deleteOne id) with
  | (some err, w1) => (Except.error err, w1)
  | (none, w1) =>
    if w1.users.any (fun u => u.id == id) then
      (Except.ok 1, { w1 with users := eraseId id w1.users })
    else (Except.ok 0, w1)

/-- The hook `UserSchema.pre('save')`: a modified password is replaced by its
bcrypt hash of cost 10.  The second component is the hasher call made. -/
def preSave (C : Crypto) (salt : Nat) (d : Doc) : Except String (Doc × List Effect) :=
  if d.isModified Field.password then
    match d.password with
    | some p => Except.ok ({ d with password := some (C.hash p 10 salt) }, [Effect.hash p])
    | none => Except.error "data and salt arguments required"
  else Except.ok (d, [])

/-- The fields an update writes: the modified paths of the document replace
those of the stored record. -/
def Doc.applyTo (d : Doc) (v : User) : User :=
  { id := v.id,
    name := if d.isModified Field.name then d.name.getD v.name else v.name,
    email := if d.isModified Field.email then d.email.getD v.email else v.email,
    password := if d.isModified Field.password then d.password.getD v.password else v.password,
    age := if d.isModified Field.age then d.age.getD v.age else v.age,
    role := if d.isModified Field.role then d.role.getD v.role else v.role }

/-- Replacing the first record that has the `_id` of the document. -/
def updateId (d : Doc) : List User → List User
  | [] => []
  | u :: us => if u.id == d.id then d.applyTo u :: us else u :: updateId d us

/-- The method `save()` of a document: validation, the `pre('save')` hook, then
one store operation, an insert for a new document and an update otherwise.  The
unique index on `email` rejects an insert, or an update of `email`, that would
give two records the same address.  On success the result is the document as
stored, no longer new and with no modified path. -/
def save (C : Crypto) (salt : Nat) (d : Doc) (w : World) : Except String Doc × World :=
  match validate d with
  | some err => (Except.error err, w)
  | none =>
    match preSave C salt d with
    | Except.error err => (Except.error err, w)
    | Except.ok (d1, effs) =>
      let w1 := { w with log := w.log ++ effs }
      match w1.contact (if d1.isNew then Effect.insert d1.id else Effect.update d1.id) with
      | (some err, w2) => (Except.error err, w2)
      | (none, w2) =>
        if d1.isNew then
          if w2.users.any (fun u => u.email == d1.toUser.email) then
            (Except.error "E11000 duplicate key error", w2)
          else
            (Except.ok { d1 with isNew := false, modified := [] },
              { w2 with users := w2.users ++ [d1.toUser] })
        else if d1.isModified Field.email &&
            w2.users.any (fun u => u.id != d1.id && u.email == d1.toUser.email) then
          (Except.error "E11000 duplicate key error", w2)
        else if w2.users.any (fun u => u.id == d1.id) then
          (Except.ok { d1 with modified := [] }, { w2 with users := updateId d1 w2.users })
        else (Except.error "No document found for query", w2)

/-- The method `comparePassword` of the schema. -/
def comparePassword (C : Crypto) (u : User) (password : String) : Bool :=
  C.compare password u.password

/-! ## Requests and responses -/

/-- The fields of `req.body` the handlers read. -/
structure Body where
  name : Option String := none
  email : Option String := none
  password : Option String := none
  age : Option Int := none
  role : Option String := none
deriving DecidableEq, Repr

/-- The JSON a handler answers with. -/
inductive Payload where
  | error (msg : String)
  | message (msg : String)
  | user (u : User)
  | users (us : List User)
  | token (t : Token)
  | empty
deriving DecidableEq, Repr

/-- A response: status code and payload. -/
structure Response where
  status : Nat
  body : Payload
deriving DecidableEq, Repr

/-! ## The handlers of `app.js` -/

/-- The handler of `POST /users`. -/
def postUsers (C : Crypto) (salt : Nat) (body : Body) (w : World) : Response × World :=
  if !truthyS body.name || !truthyS body.email || !truthyN body.age then
    (⟨400, Payload.error "Missing fields"⟩, w)
  else if !isValidEmailField body.email then
    (⟨400, Payload.error "Invalid email"⟩, w)
  else
    let (id, w0) := w.freshId
    let user := newUser id body.name body.email none body.age none
    match save C salt user w0 with
    | (Except.ok saved, w1) => (⟨201, Payload.user saved.toUser⟩, w1)
    | (Except.error _, w1) => (⟨500, Payload.error "Error creating user"⟩, w1)

/-- The handler of `GET /users` (first registration). -/
def getUsers (w : World) : Response × World :=
  match find w with
  | (Except.ok users, w1) => (⟨200, Payload.users users⟩, w1)
  | (Except.error _, w1) => (⟨500, Payload.error "Error fetching users"⟩, w1)

/-- The handler of `GET /users/:id` (first registration). -/
def getUser (id : Nat) (w : World) : Response × World :=
  match findById id w with
  | (Except.ok none, w1) => (⟨404, Payload.error "User not found"⟩, w1)
  | (Except.ok (some user), w1) => (⟨200, Payload.user user⟩, w1)
  | (Except.error _, w1) => (⟨500, Payload.error "Error fetching user"⟩, w1)

/-- The three assignments of the update handlers: `user.name = name || user.name`,
`user.email = email || user.email`, `user.age = age || user.age`. -/
def assignFields (user : Doc) (body : Body) : Doc :=
  let user := user.setName (orS body.name (user.name.getD ""))
  let user := user.setEmail (orS body.email (user.email.getD ""))
  let user := user.setAge (orN body.age (user.age.getD 0))
  user

/-- The handler of `PUT /users/:id` (first registration). -/
def putUser (C : Crypto) (salt : Nat) (id : Nat) (body : Body) (w : World) :
    Response × World :=
  match findById id w with
  | (Except.ok none, w1) => (⟨404, Payload.error "User not found"⟩, w1)
  | (Except.ok (some found), w1) =>
    if truthyS body.email && !isValidEmailField body.email then
      (⟨400, Payload.error "Invalid email"⟩, w1)
    else
      let user := assignFields found.toDoc body
      match save C salt user w1 with
      | (Except.ok saved, w2) => (⟨200, Payload.user saved.toUser⟩, w2)
      | (Except.error _, w2) => (⟨500, Payload.error "Error updating user"⟩, w2)
  | (Except.error _, w1) => (⟨500, Payload.error "Error updating user"⟩, w1)

/-- The handler of `DELETE /users/:id` (first registration). -/
def deleteUser (id : Nat) (w : World) : Response × World :=
  match deleteOne id w with
  | (Except.ok deletedCount, w1) =>
    if deletedCount == 0 then (⟨404, Payload.error "User not found"⟩, w1)
    else (⟨204, Payload.empty⟩, w1)
  | (Except.error _, w1) => (⟨500, Payload.error "Error deleting user"⟩, w1)

/-- The handler of `POST /register`. -/
def postRegister (C : Crypto) (salt : Nat) (body : Body) (w : World) : Response × World :=
  if !truthyS body.name || !truthyS body.email || !truthyS body.password ||
      !truthyN body.age then
    (⟨400, Payload.error "Missing fields"⟩, w)
  else if !isValidEmailField body.email then
    (⟨400, Payload.error "Invalid email"⟩, w)
  else
    let (id, w0) := w.freshId
    let user := newUser id body.name body.email body.password body.age
      (some (orS body.role "user"))
    match save C salt user w0 with
    | (Except.ok _, w1) => (⟨201, Payload.message "User registered successfully"⟩, w1)
    | (Except.error _, w1) => (⟨500, Payload.error "Error registering user"⟩, w1)

/-- The handler of `POST /login`; `now` is the clock `jwt.sign` reads. -/
def postLogin (C : Crypto) (cfg : Config) (now : Nat) (body : Body) (w : World) :
    Response × World :=
  if !truthyS body.email || !truthyS body.password then
    (⟨400, Payload.error "Missing fields"⟩, w)
  else
    match findOne (body.email.getD "") w with
    | (Except.ok none, w1) => (⟨404, Payload.error "User not found"⟩, w1)
    | (Except.ok (some user), w1) =>
      let w2 := { w1 with
        log := w1.log ++ [Effect.compare (body.password.getD "") user.password] }
      if !comparePassword C user (body.password.getD "") then
        (⟨401, Payload.error "Invalid password"⟩, w2)
      else
        (⟨200, Payload.token
          (jwtSign C user.id user.role cfg.JWT_SECRET cfg.JWT_EXPIRES_IN now)⟩, w2)
    | (Except.error _, w1) => (⟨500, Payload.error "Error logging in"⟩, w1)

/-- The handler of `GET /users` (second registration, "Protected Route"). -/
def getUsersProtected (w : World) : Response × World :=
  match find w with
  | (Except.ok users, w1) => (⟨200, Payload.users users⟩, w1)
  | (Except.error _, w1) => (⟨500, Payload.error "Error fetching users"⟩, w1)

/-- The handler of `GET /users/:id` (second registration). -/
def getUserProtected (id : Nat) (w : World) : Response × World :=
  match findById id w with
  | (Except.ok none, w1) => (⟨404, Payload.error "User not found"⟩, w1)
  | (Except.ok (some user), w1) => (⟨200, Payload.user user⟩, w1)
  | (Except.error _, w1) => (⟨500, Payload.error "Error fetching user"⟩, w1)

/-- The handler of `PUT /users/:id` (second registration). -/
def putUserProtected (C : Crypto) (salt : Nat) (id : Nat) (body : Body) (w : World) :
    Response × World :=
  match findById id w with
  | (Except.ok none, w1) => (⟨404, Payload.error "User not found"⟩, w1)
  | (Except.ok (some found), w1) =>
    if truthyS body.email && !isValidEmailField body.email then
      (⟨400, Payload.error "Invalid email"⟩, w1)
    else
      let user := assignFields found.toDoc body
      match save C salt user w1 with
      | (Except.ok saved, w2) => (⟨200, Payload.user saved.toUser⟩, w2)
      | (Except.error _, w2) => (⟨500, Payload.error "Error updating user"⟩, w2)
  | (Except.error _, w1) => (⟨500, Payload.error "Error updating user"⟩, w1)

/-- The handler of `DELETE /users/:id` (second registration). -/
def deleteUserProtected (id : Nat) (w : World) : Response × World :=
  match deleteOne id w with
  | (Except.ok deletedCount, w1) =>
    if deletedCount == 0 then (⟨404, Payload.error "User not found"⟩, w1)
    else (⟨204, Payload.empty⟩, w1)
  | (Except.error _, w1) => (⟨500, Payload.error "Error deleting user"⟩, w1)

/-- The handler of `GET /admin`. -/
def getAdmin (w : World) : Response × World :=
  (⟨200, Payload.message "Welcome, admin"⟩, w)

/-- The handler of `GET /owner`. -/
def getOwner (w : World) : Response × World :=
  (⟨200, Payload.message "Welcome, owner"⟩, w)

/-! ## Routing -/

/-- The HTTP methods the application registers. -/
inductive Method where
  | GET | POST | PUT | DELETE
deriving DecidableEq, Repr

/-- The path patterns the application registers. -/
inductive Pattern where
  | users | usersId | register | login | admin | owner
deriving DecidableEq, Repr

/-- The path of a request; `usersId id` is `/users/<id>` and `unknown` is any
path no pattern matches. -/
inductive Path where
  | users
  | usersId (id : Nat)
  | register
  | login
  | admin
  | owner
  | unknown
deriving DecidableEq, Repr

/-- The pattern a path matches. -/
def Path.pattern : Path → Option Pattern
  | Path.users => some Pattern.users
  | Path.usersId _ => some Pattern.usersId
  | Path.register => some Pattern.register
  | Path.login => some Pattern.login
  | Path.admin => some Pattern.admin
  | Path.owner => some Pattern.owner
  | Path.unknown => none

/-- The identity a verified token carries. -/
structure Identity where
  userId : Nat
  role : String
deriving DecidableEq, Repr

/-- What a bearer header presents: text that does not parse as a token, or a
token. -/
inductive Presented where
  | malformed
  | token (t : Token)
deriving DecidableEq, Repr

/-- A request: method, path, body, the bearer header if present, the identity
attached by a gate (`req.user`), and the two ambient inputs of the handlers, the
salt `bcrypt` draws and the time of the clock. -/
structure Request where
  method : Method
  path : Path
  body : Body := {}
  authorization : Option Presented := none
  user : Option Identity := none
  salt : Nat := 0
  now : Nat := 0
deriving DecidableEq, Repr

/-- The parameter `req.params.id`. -/
def Request.paramId (req : Request) : Nat :=
  match req.path with
  | Path.usersId id => id
  | _ => 0

/-- The failures of token verification named by the spec. -/
inductive TokenError where
  | TokenInvalid | TokenExpired | TokenMalformed
deriving DecidableEq, Repr

/-- Modelled from the spec: `verify(token, secret)` of the Token Service (section
4.2), the counterpart of `jwt.sign` that `./middleware/authenticate` calls and
that is not among the sources.  It fails with `TokenMalformed` when the text does
not parse, `TokenInvalid` when the signature does not match, `TokenExpired` when
the current time is at or past `exp`, and otherwise yields the identity. -/
def tokenVerify (C : Crypto) (secret : String) (now : Nat) :
    Presented → Except TokenError Identity
  | Presented.malformed => Except.error TokenError.TokenMalformed
  | Presented.token t =>
    if t.sig != C.mac secret t.id t.role t.iat t.exp then Except.error TokenError.TokenInvalid
    else if now ≥ t.exp then Except.error TokenError.TokenExpired
    else Except.ok { userId := t.id, role := t.role }

/-- Modelled from the spec: the Authentication Gate (section 4.3),
`./middleware/authenticate`, which is not among the sources.  A missing header,
or a token that fails verification for whatever reason, ends the request with
the 401 `Unauthenticated` failure; otherwise the identity is attached to the
request. -/
def authenticate (C : Crypto) (cfg : Config) (req : Request) : Except Response Request :=
  match req.authorization with
  | none => Except.error ⟨401, Payload.error "Unauthenticated"⟩
  | some presented =>
    match tokenVerify C cfg.JWT_SECRET req.now presented with
    | Except.error _ => Except.error ⟨401, Payload.error "Unauthenticated"⟩
    | Except.ok identity => Except.ok { req with user := some identity }

/-- Modelled from the spec: the Authorization Gate (section 4.4),
`./middleware/authorize`, which is not among the sources.  It reads the attached
identity and fails with the 403 `Forbidden` failure unless the identity's role is
in the allowed set; otherwise the request passes through unchanged. -/
def authorize (roles : List String) (_C : Crypto) (_cfg : Config) (req : Request) :
    Except Response Request :=
  match req.user with
  | some identity =>
    if roles.contains identity.role then Except.ok req
    else Except.error ⟨403, Payload.error "Forbidden"⟩
  | none => Except.error ⟨403, Payload.error "Forbidden"⟩

/-- A middleware: it either ends the request with a response or passes the
request on. -/
abbrev Gate := Crypto → Config → Request → Except Response Request

/-- A final handler of a route. -/
abbrev Handler := Crypto → Config → Request → World → Response × World

/-- One registration `app.METHOD(path, ...gates, handler)`. -/
structure Route where
  method : Method
  pattern : Pattern
  gates : List Gate
  handler : Handler

/-- The registrations of `app.js`, in source order. -/
def routes : List Route :=
  [ ⟨Method.POST, Pattern.users, [], fun C _ req w => postUsers C req.salt req.body w⟩,
    ⟨Method.GET, Pattern.users, [authenticate], fun _ _ _ w => getUsers w⟩,
    ⟨Method.GET, Pattern.usersId, [authenticate], fun _ _ req w => getUser req.paramId w⟩,
    ⟨Method.PUT, Pattern.usersId, [authenticate],
      fun C _ req w => putUser C req.salt req.paramId req.body w⟩,
    ⟨Method.DELETE, Pattern.usersId, [authenticate],
      fun _ _ req w => deleteUser req.paramId w⟩,
    ⟨Method.POST, Pattern.register, [], fun C _ req w => postRegister C req.salt req.body w⟩,
    ⟨Method.POST, Pattern.login, [], fun C cfg req w => postLogin C cfg req.now req.body w⟩,
    ⟨Method.GET, Pattern.users, [authenticate], fun _ _ _ w => getUsersProtected w⟩,
    ⟨Method.GET, Pattern.usersId, [authenticate],
      fun _ _ req w => getUserProtected req.paramId w⟩,
    ⟨Method.PUT, Pattern.usersId, [authenticate],
      fun C _ req w => putUserProtected C req.salt req.paramId req.body w⟩,
    ⟨Method.DELETE, Pattern.usersId, [authenticate],
      fun _ _ req w => deleteUserProtected req.paramId w⟩,
    ⟨Method.GET, Pattern.admin, [authenticate, authorize ["admin"]],
      fun _ _ _ w => getAdmin w⟩,
    ⟨Method.GET, Pattern.owner, [authenticate, authorize ["owner"]],
      fun _ _ _ w => getOwner w⟩ ]

/-- Running the gates of a route in order; the first failure ends the request. -/
def runGates (C : Crypto) (cfg : Config) : List Gate → Request → Except Response Request
  | [], req => Except.ok req
  | g :: gs, req =>
    match g C cfg req with
    | Except.error resp => Except.error resp
    | Except.ok req1 => runGates C cfg gs req1

/-- The result of serving a request: the response, the state afterwards, and
whether the final handler of the route ran. -/
structure Outcome where
  response : Response
  world : World
  handlerInvoked : Bool
deriving DecidableEq, Repr

/-- Serving a request through one registration. -/
def runRoute (C : Crypto) (cfg : Config) (r : Route) (req : Request) (w : World) : Outcome :=
  match runGates C cfg r.gates req with
  | Except.error resp => ⟨resp, w, false⟩
  | Except.ok req1 =>
    let (resp, w1) := r.handler C cfg req1 w
    ⟨resp, w1, true⟩

/-- Whether a registration matches a request. -/
def Route.accepts (r : Route) (req : Request) : Bool :=
  r.method == req.method && req.path.pattern == some r.pattern

/-- The application: the first matching registration serves the request, and a
request nothing matches is answered 404. -/
def app (C : Crypto) (cfg : Config) (req : Request) (w : World) : Outcome :=
  match routes.find? (fun r => r.accepts req) with
  | some r => runRoute C cfg r req w
  | none => ⟨⟨404, Payload.empty⟩, w, false⟩

/-! ## Reachable states -/

/-- The fault, if any, the next store operation will hit. -/
def World.pendingFault (w : World) : Option String :=
  match w.faults with
  | [] => none
  | f :: _ => f

/-- The next store operation is not hit by an injected fault. -/
def World.storeUp (w : World) : Prop := w.pendingFault = none

/-- A non-empty string with neither a white-space character nor `@`: the shape
the spec gives to each of the three parts of an accepted address. -/
def PlainPart (t : String) : Prop :=
  t ≠ "" ∧ ∀ ch ∈ t.toList, isJsSpace ch = false ∧ ch ≠ '@'

/-! ## Concrete values for evaluating the handlers -/

/-- A concrete hasher and signer for evaluating the handlers: the hash is the
data followed by `$` and the salt, `compare` accepts a hash that starts with the
data and `$`, and the signature adds up the lengths and numbers signed. -/
def demoCrypto : Crypto :=
  { hash := fun data _ salt => data ++ "$" ++ toString salt
    compare := fun data hashed => (data ++ "$").toList.isPrefixOf hashed.toList
    mac := fun secret id role iat exp => secret.length + id + role.length + iat + exp }

/-- A configuration for evaluating the handlers. -/
def demoConfig : Config := { JWT_SECRET := "s3cret", JWT_EXPIRES_IN := 3600 }

/-- The registration body of the spec's end-to-end example. -/
def demoBody : Body :=
  { name := some "A", email := some "a@b.com", password := some "p", age := some 30 }

/-- The record `demoBody` is stored as when the salt drawn is `1`. -/
def demoUser : User := ⟨0, "A", "a@b.com", "p$1", 30, "user"⟩

/-- A second record, with role `admin`. -/
def demoAdmin : User := ⟨1, "B", "b@b.com", "q$2", 41, "admin"⟩

/-- The state after `demoBody` was registered with salt `1` in an empty
collection. -/
def demoWorld : World := ⟨[demoUser], 1, [], [Effect.hash "p", Effect.insert 0]⟩

/-- The same collection when the next store operation will throw. -/
def demoWorldDown : World := { demoWorld with faults := [some "ECONNRESET"] }

/-- The state after `demoBodyB` was then registered with salt `2`. -/
def demoWorld2 : World :=
  ⟨[demoUser, demoAdmin], 2, [],
    [Effect.hash "p", Effect.insert 0, Effect.hash "q", Effect.insert 1]⟩

/-- Whether a registration is one of the user routes `GET /users`,
`GET /users/:id`, `PUT /users/:id`, `DELETE /users/:id`. -/
def Route.isUserRoute (r : Route) : Bool :=
  (r.method == Method.GET && r.pattern == Pattern.users) ||
  ((r.method == Method.GET || r.method == Method.PUT || r.method == Method.DELETE) &&
    r.pattern == Pattern.usersId)

/-- A token issued for `demoAdmin` at time 7. -/
def demoAdminToken : Token := jwtSign demoCrypto 1 "admin" "s3cret" 3600 7

/-- A token issued for `demoUser` at time 7. -/
def demoUserToken : Token := jwtSign demoCrypto 0 "user" "s3cret" 3600 7

/-! ## Properties of the matcher -/

theorem matchItems_nil (s : List Char) : matchItems [] s = true ↔ s = [] := by
  cases s <;> simp [matchItems]

theorem matchItems_one (p : Char → Bool) (rest : List Item) (s : List Char) :
    matchItems (Item.one p :: rest) s = true ↔
      ∃ c cs, s = c :: cs ∧ p c = true ∧ matchItems rest cs = true := by
  cases s with
  | nil => simp [matchItems]
  | cons c cs =>
    simp only [matchItems, Bool.and_eq_true]
    constructor
    · rintro ⟨h1, h2⟩
      exact ⟨c, cs, rfl, h1, h2⟩
    · rintro ⟨x, xs, h, h1, h2⟩
      simp only [List.cons.injEq] at h
      obtain ⟨rfl, rfl⟩ := h
      exact ⟨h1, h2⟩

theorem matchItems_many1 (p : Char → Bool) (rest : List Item) (s : List Char) :
    matchItems (Item.many1 p :: rest) s = true ↔
      ∃ a b, s = a ++ b ∧ a ≠ [] ∧ (∀ c ∈ a, p c = true) ∧ matchItems rest b = true := by
  induction s with
  | nil =>
    simp only [matchItems, Bool.false_eq_true, false_iff]
    rintro ⟨a, b, h, ha, -⟩
    cases a with
    | nil => exact ha rfl
    | cons x xs => simp at h
  | cons c cs ih =>
    simp only [matchItems, Bool.and_eq_true, Bool.or_eq_true, ih]
    constructor
    · rintro ⟨hc, h | ⟨a, b, rfl, -, hall, hm⟩⟩
      · exact ⟨[c], cs, rfl, by simp, by simpa using hc, h⟩
      · refine ⟨c :: a, b, rfl, by simp, ?_, hm⟩
        intro x hx
        rcases List.mem_cons.1 hx with rfl | hx
        · exact hc
        · exact hall x hx
    · rintro ⟨a, b, h, ha, hall, hm⟩
      cases a with
      | nil => exact absurd rfl ha
      | cons x xs =>
        simp only [List.cons_append, List.cons.injEq] at h
        obtain ⟨rfl, rfl⟩ := h
        refine ⟨hall _ (List.mem_cons_self _ _), ?_⟩
        cases xs with
        | nil => left; simpa using hm
        | cons y ys =>
          right
          exact ⟨y :: ys, b, rfl, by simp,
            fun z hz => hall z (List.mem_cons_of_mem _ hz), hm⟩

/-- The accepted inputs of the e-mail pattern, on lists of characters. -/
theorem matchItems_emailRegex (s : List Char) :
    matchItems emailRegex s = true ↔
      ∃ a b c, s = a ++ '@' :: (b ++ '.' :: c) ∧
        (a ≠ [] ∧ ∀ x ∈ a, notSpaceAt x = true) ∧
        (b ≠ [] ∧ ∀ x ∈ b, notSpaceAt x = true) ∧
        (c ≠ [] ∧ ∀ x ∈ c, notSpaceAt x = true) := by
  unfold emailRegex
  constructor
  · intro h
    obtain ⟨a, r1, rfl, ha, hall_a, h⟩ := (matchItems_many1 _ _ _).1 h
    obtain ⟨x, r2, rfl, hx, h⟩ := (matchItems_one _ _ _).1 h
    obtain ⟨b, r3, rfl, hb, hall_b, h⟩ := (matchItems_many1 _ _ _).1 h
    obtain ⟨y, r4, rfl, hy, h⟩ := (matchItems_one _ _ _).1 h
    obtain ⟨c, r5, rfl, hc, hall_c, h⟩ := (matchItems_many1 _ _ _).1 h
    have h5 : r5 = [] := (matchItems_nil _).1 h
    subst h5
    have hx' : x = '@' := by simpa using hx
    have hy' : y = '.' := by simpa using hy
    subst hx' hy'
    exact ⟨a, b, c, by simp, ⟨ha, hall_a⟩, ⟨hb, hall_b⟩, ⟨hc, hall_c⟩⟩
  · rintro ⟨a, b, c, rfl, ⟨ha, hall_a⟩, ⟨hb, hall_b⟩, ⟨hc, hall_c⟩⟩
    refine (matchItems_many1 _ _ _).2 ⟨a, _, rfl, ha, hall_a, ?_⟩
    refine (matchItems_one _ _ _).2 ⟨'@', _, rfl, by simp, ?_⟩
    refine (matchItems_many1 _ _ _).2 ⟨b, _, rfl, hb, hall_b, ?_⟩
    refine (matchItems_one _ _ _).2 ⟨'.', _, rfl, by simp, ?_⟩
    exact (matchItems_many1 _ _ _).2 ⟨c, [], by simp, hc, hall_c, (matchItems_nil _).2 rfl⟩

theorem notSpaceAt_iff (x : Char) :
    notSpaceAt x = true ↔ isJsSpace x = false ∧ x ≠ '@' := by
  simp [notSpaceAt]

theorem plainPart_mk (l : List Char) :
    PlainPart (String.mk l) ↔ l ≠ [] ∧ ∀ x ∈ l, notSpaceAt x = true := by
  unfold PlainPart
  constructor
  · rintro ⟨h1, h2⟩
    refine ⟨fun h => h1 (by subst h; rfl), fun x hx => (notSpaceAt_iff x).2 (h2 x hx)⟩
  · rintro ⟨h1, h2⟩
    refine ⟨fun h => h1 ?_, fun x hx => (notSpaceAt_iff x).1 (h2 x hx)⟩
    have := congrArg String.data h
    simpa using this

theorem plainPart_data (t : String) :
    PlainPart t ↔ t.data ≠ [] ∧ ∀ x ∈ t.data, notSpaceAt x = true := by
  cases t with
  | mk l => exact plainPart_mk l

/-- Claim C9.  `isValidEmail s` holds exactly when `s` is `a ++ "@" ++ b ++ "." ++ c`
with `a`, `b`, `c` non-empty and free of white space and of `@`; every accepted
string has exactly one `@`, has no white-space character, and has a `.` that
comes after the `@` and is not the last character. -/
theorem isValidEmail_iff (s : String) :
    (isValidEmail s = true ↔
      ∃ a b c : String, s = a ++ "@" ++ b ++ "." ++ c ∧
        PlainPart a ∧ PlainPart b ∧ PlainPart c) ∧
    (isValidEmail s = true →
      s.toList.count '@' = 1 ∧
      (∀ ch ∈ s.toList, isJsSpace ch = false) ∧
      ∃ pre post : String, s = pre ++ "." ++ post ∧ '@' ∈ pre.toList ∧ post ≠ "") := by
  have key : isValidEmail s = true ↔
      ∃ a b c : String, s = a ++ "@" ++ b ++ "." ++ c ∧
        PlainPart a ∧ PlainPart b ∧ PlainPart c := by
    unfold isValidEmail
    rw [matchItems_emailRegex]
    constructor
    · rintro ⟨a, b, c, h, ha, hb, hc⟩
      refine ⟨String.mk a, String.mk b, String.mk c, ?_, (plainPart_mk a).2 ha,
        (plainPart_mk b).2 hb, (plainPart_mk c).2 hc⟩
      apply String.ext
      simpa [String.toList] using h
    · rintro ⟨a, b, c, rfl, ha, hb, hc⟩
      refine ⟨a.data, b.data, c.data, by simp [String.toList], (plainPart_data a).1 ha,
        (plainPart_data b).1 hb, (plainPart_data c).1 hc⟩
  refine ⟨key, fun h => ?_⟩
  obtain ⟨a, b, c, rfl, ha, hb, hc⟩ := key.1 h
  have ha2 := ha.2
  have hb2 := hb.2
  have hc2 := hc.2
  have cnt : ∀ t : String, (∀ ch ∈ t.toList, isJsSpace ch = false ∧ ch ≠ '@') →
      t.toList.count '@' = 0 := by
    intro t ht
    apply List.count_eq_zero.2
    intro hmem
    exact (ht _ hmem).2 rfl
  refine ⟨?_, ?_, a ++ "@" ++ b, c, rfl, ?_, hc.1⟩
  · have e1 := cnt a ha2
    have e2 := cnt b hb2
    have e3 := cnt c hc2
    simp only [String.toList] at e1 e2 e3
    simp [String.toList, List.count_append, List.count_cons, e1, e2, e3]
  · intro ch hch
    simp only [String.toList, String.data_append, List.mem_append] at hch
    rcases hch with (((hch | hch) | hch) | hch) | hch
    · exact (ha2 ch hch).1
    · have : ch = '@' := by simpa using hch
      subst this; decide
    · exact (hb2 ch hch).1
    · have : ch = '.' := by simpa using hch
      subst this; decide
    · exact (hc2 ch hch).1
  · simp [String.toList]

/-- Claim C9 at the address `a@b.com`. -/
theorem isValidEmail_iff_witness :
    isValidEmail "a@b.com" = true ∧
    ("a@b.com".toList.count '@' = 1 ∧
      (∀ ch ∈ "a@b.com".toList, isJsSpace ch = false) ∧
      ∃ pre post : String, "a@b.com" = pre ++ "." ++ post ∧ '@' ∈ pre.toList ∧ post ≠ "") :=
  ⟨by decide, (isValidEmail_iff "a@b.com").2 (by decide)⟩

/-! ## Validation failures -/

theorem postUsers_missing (C : Crypto) (salt : Nat) (body : Body) (w : World)
    (h : truthyS body.name = false ∨ truthyS body.email = false ∨ truthyN body.age = false) :
    postUsers C salt body w = (⟨400, Payload.error "Missing fields"⟩, w) := by
  unfold postUsers
  rcases h with h | h | h <;> simp [h]

theorem postRegister_missing (C : Crypto) (salt : Nat) (body : Body) (w : World)
    (h : truthyS body.name = false ∨ truthyS body.email = false ∨
      truthyS body.password = false ∨ truthyN body.age = false) :
    postRegister C salt body w = (⟨400, Payload.error "Missing fields"⟩, w) := by
  unfold postRegister
  rcases h with h | h | h | h <;> simp [h]

theorem contact_eq (w : World) (e : Effect) :
    w.contact e =
      (w.pendingFault, { w with faults := w.faults.tail, log := w.log ++ [e] }) := by
  obtain ⟨users, nextId, faults, log⟩ := w
  unfold World.contact World.pendingFault
  cases faults <;> simp

theorem findById_ok {id : Nat} {w w1 : World} {r : Option User}
    (h : findById id w = (Except.ok r, w1)) :
    w1.users = w.users ∧ w1.nextId = w.nextId ∧ w1.log = w.log ++ [Effect.findById id] ∧
      r = w.users.find? (fun u => u.id == id) ∧ w1.faults = w.faults.tail ∧ w.storeUp := by
  unfold findById at h
  simp only [contact_eq] at h
  cases hf : w.pendingFault with
  | some err => simp [hf] at h
  | none =>
    simp only [hf, Prod.mk.injEq, Except.ok.injEq] at h
    obtain ⟨h1, h2⟩ := h
    subst h2
    exact ⟨rfl, rfl, rfl, h1.symm, rfl, hf⟩

/-- Claim C6.  `POST /register` with a missing or falsy `name`, `email`,
`password` or `age`, and `POST /users` with a missing or falsy `name`, `email` or
`age`, answer 400 `Missing fields`; with all required fields truthy and an e-mail
that fails `isValidEmail` they answer 400 `Invalid email`; in both cases the state
comes back as it was, so no store operation was issued.  `PUT /users/:id` on an
existing user with a non-empty e-mail that fails `isValidEmail` answers 400
`Invalid email`, under either registration, and leaves the records as they were,
issuing no store operation after the lookup. -/
theorem validation_failures (C : Crypto) (salt id : Nat) (body : Body) (w : World) :
    ((truthyS body.name = false ∨ truthyS body.email = false ∨
        truthyS body.password = false ∨ truthyN body.age = false) →
      postRegister C salt body w = (⟨400, Payload.error "Missing fields"⟩, w)) ∧
    ((truthyS body.name = false ∨ truthyS body.email = false ∨ truthyN body.age = false) →
      postUsers C salt body w = (⟨400, Payload.error "Missing fields"⟩, w)) ∧
    (truthyS body.name = true → truthyS body.email = true → truthyS body.password = true →
      truthyN body.age = true → isValidEmailField body.email = false →
      postRegister C salt body w = (⟨400, Payload.error "Invalid email"⟩, w)) ∧
    (truthyS body.name = true → truthyS body.email = true → truthyN body.age = true →
      isValidEmailField body.email = false →
      postUsers C salt body w = (⟨400, Payload.error "Invalid email"⟩, w)) ∧
    (∀ (u : User) (w1 : World) (e : String),
      findById id w = (Except.ok (some u), w1) →
      body.email = some e → e ≠ "" → isValidEmail e = false →
      putUser C salt id body w = (⟨400, Payload.error "Invalid email"⟩, w1) ∧
      putUserProtected C salt id body w = (⟨400, Payload.error "Invalid email"⟩, w1) ∧
      w1.users = w.users ∧ w1.log = w.log ++ [Effect.findById id]) := by
  refine ⟨postRegister_missing C salt body w, postUsers_missing C salt body w, ?_, ?_, ?_⟩
  · intro h1 h2 h3 h4 h5
    simp [postRegister, h1, h2, h3, h4, h5]
  · intro h1 h2 h4 h5
    simp [postUsers, h1, h2, h4, h5]
  · intro u w1 e hf he hne hinv
    have hk := findById_ok hf
    have ht : truthyS body.email = true := by simp [he, truthyS, hne]
    have hv : isValidEmailField body.email = false := by simp [he, isValidEmailField, hinv]
    refine ⟨?_, ?_, hk.1, hk.2.2.1⟩
    · simp [putUser, hf, ht, hv]
    · simp [putUserProtected, hf, ht, hv]

/-- Claim C6 on concrete requests: bodies with a missing field or an e-mail
without a dot, and an update of the user registered first. -/
theorem validation_failures_witness :
    postRegister demoCrypto 1 { name := some "A", email := some "a@b.com", age := some 30 }
        (World.initial []) = (⟨400, Payload.error "Missing fields"⟩, World.initial []) ∧
    postUsers demoCrypto 1 { name := some "", email := some "a@b.com", age := some 30 }
        (World.initial []) = (⟨400, Payload.error "Missing fields"⟩, World.initial []) ∧
    postRegister demoCrypto 1
        { name := some "A", email := some "a@b", password := some "p", age := some 30 }
        (World.initial []) = (⟨400, Payload.error "Invalid email"⟩, World.initial []) ∧
    postUsers demoCrypto 1 { name := some "A", email := some "a@b", age := some 30 }
        (World.initial []) = (⟨400, Payload.error "Invalid email"⟩, World.initial []) ∧
    (putUser demoCrypto 1 0 { email := some "nobody" } demoWorld).1 =
      ⟨400, Payload.error "Invalid email"⟩ :=
  ⟨(validation_failures demoCrypto 1 0
      { name := some "A", email := some "a@b.com", age := some 30 } (World.initial [])).1
      (by decide),
   (validation_failures demoCrypto 1 0
      { name := some "", email := some "a@b.com", age := some 30 } (World.initial [])).2.1
      (by decide),
   (validation_failures demoCrypto 1 0
      { name := some "A", email := some "a@b", password := some "p", age := some 30 }
      (World.initial [])).2.2.1 (by decide) (by decide) (by decide) (by decide) (by decide),
   (validation_failures demoCrypto 1 0
      { name := some "A", email := some "a@b", age := some 30 }
      (World.initial [])).2.2.2.1 (by decide) (by decide) (by decide) (by decide),
   congrArg Prod.fst ((validation_failures demoCrypto 1 0 { email := some "nobody" }
      demoWorld).2.2.2.2
      demoUser { demoWorld with log := demoWorld.log ++ [Effect.findById 0] }
      "nobody" rfl rfl (by decide) (by decide)).1⟩

/-! ## Failing store operations -/

theorem contact_users (w : World) (e : Effect) :
    (w.contact e).2.users = w.users ∧ (w.contact e).2.nextId = w.nextId ∧
      (w.contact e).2.log = w.log ++ [e] ∧ (w.contact e).2.faults = w.faults.tail := by
  unfold World.contact
  cases w.faults <;> simp

/-- A failing `save()` leaves the records as they were. -/
theorem save_error {C : Crypto} {salt : Nat} {d : Doc} {w w1 : World} {err : String}
    (h : save C salt d w = (Except.error err, w1)) :
    w1.users = w.users ∧ w1.nextId = w.nextId := by
  unfold save at h
  split at h
  · simp only [Prod.mk.injEq] at h
    obtain ⟨-, rfl⟩ := h
    exact ⟨rfl, rfl⟩
  · split at h
    · simp only [Prod.mk.injEq] at h
      obtain ⟨-, rfl⟩ := h
      exact ⟨rfl, rfl⟩
    · rename_i d1 effs _
      simp only at h
      split at h
      · rename_i e w2 hc
        simp only [Prod.mk.injEq] at h
        obtain ⟨-, rfl⟩ := h
        have := contact_users { w with log := w.log ++ effs }
          (if d1.isNew then Effect.insert d1.id else Effect.update d1.id)
        rw [hc] at this
        exact ⟨this.1, this.2.1⟩
      · rename_i w2 hc
        have hk := contact_users { w with log := w.log ++ effs }
          (if d1.isNew then Effect.insert d1.id else Effect.update d1.id)
        rw [hc] at hk
        split at h
        · split at h
          · simp only [Prod.mk.injEq] at h
            obtain ⟨-, rfl⟩ := h
            exact ⟨hk.1, hk.2.1⟩
          · simp at h
        · split at h
          · simp only [Prod.mk.injEq] at h
            obtain ⟨-, rfl⟩ := h
            exact ⟨hk.1, hk.2.1⟩
          · split at h
            · simp at h
            · simp only [Prod.mk.injEq] at h
              obtain ⟨-, rfl⟩ := h
              exact ⟨hk.1, hk.2.1⟩

/-- What the `pre('save')` hook returns: the document with at most its password
replaced, by the hash of the password when that path is modified. -/
theorem preSave_ok {C : Crypto} {salt : Nat} {d d1 : Doc} {effs : List Effect}
    (h : preSave C salt d = Except.ok (d1, effs)) :
    (d.isModified Field.password = false ∧ d1 = d ∧ effs = []) ∨
    (d.isModified Field.password = true ∧ ∃ p, d.password = some p ∧
      d1 = { d with password := some (C.hash p 10 salt) } ∧ effs = [Effect.hash p]) := by
  unfold preSave at h
  by_cases hm : d.isModified Field.password = true
  · right
    simp only [hm, if_true] at h
    cases hp : d.password with
    | none => simp [hp] at h
    | some p =>
      simp only [hp, Except.ok.injEq, Prod.mk.injEq] at h
      exact ⟨hm, p, rfl, h.1.symm, h.2.symm⟩
  · left
    simp only [hm] at h
    simp only [Bool.false_eq_true, if_false, Except.ok.injEq, Prod.mk.injEq] at h
    exact ⟨by simpa using hm, h.1.symm, h.2.symm⟩

/-- A successful `save()`: the document passed validation and the hook, the
store was reached without a fault, and the document was appended (when new, its
address being unused) or written over the record with its `_id` (otherwise, a
changed address being unused by the other records). -/
theorem save_ok {C : Crypto} {salt : Nat} {d d2 : Doc} {w w1 : World}
    (h : save C salt d w = (Except.ok d2, w1)) :
    ∃ d1 effs, validate d = none ∧ preSave C salt d = Except.ok (d1, effs) ∧
      w.storeUp ∧ w1.nextId = w.nextId ∧ w1.faults = w.faults.tail ∧
      w1.log = w.log ++ effs ++ [if d1.isNew then Effect.insert d1.id else Effect.update d1.id] ∧
      ((d1.isNew = true ∧ (∀ u ∈ w.users, u.email ≠ d1.toUser.email) ∧
          w1.users = w.users ++ [d1.toUser] ∧ d2 = { d1 with isNew := false, modified := [] }) ∨
       (d1.isNew = false ∧
          (d1.isModified Field.email = true →
            ∀ u ∈ w.users, u.id ≠ d1.id → u.email ≠ d1.toUser.email) ∧
          (∃ u ∈ w.users, u.id = d1.id) ∧
          w1.users = updateId d1 w.users ∧
          d2 = { d1 with isNew := false, modified := [] })) := by
  unfold save at h
  cases hv : validate d with
  | some err => simp [hv] at h
  | none =>
    simp only [hv] at h
    cases hp : preSave C salt d with
    | error err => simp [hp] at h
    | ok pr =>
      obtain ⟨d1, effs⟩ := pr
      have hpf : ({ w with log := w.log ++ effs } : World).pendingFault = w.pendingFault := rfl
      simp only [hp, contact_eq, hpf] at h
      refine ⟨d1, effs, rfl, rfl, ?_⟩
      cases hf : w.pendingFault with
      | some err => simp [hf] at h
      | none =>
        simp only [hf] at h
        have hup : w.storeUp := hf
        by_cases hn : d1.isNew = true
        · simp only [hn, if_true] at h
          split at h
          · simp at h
          · rename_i hdup
            simp only [Prod.mk.injEq, Except.ok.injEq] at h
            obtain ⟨h1, h2⟩ := h
            subst h2
            refine ⟨hup, rfl, rfl, by simp [hn], Or.inl ⟨hn, ?_, rfl, h1.symm⟩⟩
            intro u hu heq
            apply hdup
            simp only [List.any_eq_true, beq_iff_eq]
            exact ⟨u, hu, heq⟩
        · have hn' : d1.isNew = false := by simpa using hn
          simp only [hn', Bool.false_eq_true, if_false] at h
          split at h
          · simp at h
          · rename_i hdup
            split at h
            · rename_i hex
              simp only [Prod.mk.injEq, Except.ok.injEq] at h
              obtain ⟨h1, h2⟩ := h
              subst h2
              refine ⟨hup, rfl, rfl, by simp [hn'], Or.inr ⟨hn', ?_, ?_, rfl, ?_⟩⟩
              rotate_left 2
              · rw [← h1]
              · intro hm u hu hid heq
                apply hdup
                simp only [Bool.and_eq_true, List.any_eq_true, bne_iff_ne, ne_eq, beq_iff_eq]
                exact ⟨hm, u, hu, hid, heq⟩
              · simpa using hex
            · simp at h

/-- A document without a password never passes `save()`. -/
theorem save_no_password (C : Crypto) (salt : Nat) (d : Doc) (w : World)
    (h : d.password = none) : ∃ err, save C salt d w = (Except.error err, w) := by
  have hv : ∃ err, validate d = some err := by
    unfold validate
    simp only [h, requiredString]
    split
    · exact ⟨_, rfl⟩
    · split
      · exact ⟨_, rfl⟩
      · exact ⟨_, rfl⟩
  obtain ⟨err, he⟩ := hv
  exact ⟨err, by unfold save; rw [he]⟩

/-- `POST /users` never answers 201 and never changes the records. -/
theorem postUsers_users (C : Crypto) (salt : Nat) (body : Body) (w : World) :
    (postUsers C salt body w).1.status ≠ 201 ∧ (postUsers C salt body w).2.users = w.users := by
  unfold postUsers
  split
  · exact ⟨by simp, rfl⟩
  · split
    · exact ⟨by simp, rfl⟩
    · obtain ⟨err, he⟩ := save_no_password C salt
        (newUser w.freshId.1 body.name body.email none body.age none) w.freshId.2 rfl
      simp only [he]
      exact ⟨by simp, rfl⟩

/-- Claim C8 (refuted by the code).  `POST /users` never answers 201 and never
adds a record: the document it builds has no password, which the schema requires,
so `save()` rejects it.  On the body `{ name: "A", email: "a@b.com", age: 30 }`
and an empty collection the answer is 500 `Error creating user`. -/
theorem postUsers_never_creates :
    (∀ (C : Crypto) (salt : Nat) (body : Body) (w : World),
      (postUsers C salt body w).1.status ≠ 201 ∧
      (postUsers C salt body w).2.users = w.users) ∧
    postUsers demoCrypto 1 { name := some "A", email := some "a@b.com", age := some 30 }
        (World.initial []) =
      (⟨500, Payload.error "Error creating user"⟩, ⟨[], 1, [], []⟩) :=
  ⟨postUsers_users, by rfl⟩

theorem preSave_fields {C : Crypto} {salt : Nat} {d d1 : Doc} {effs : List Effect}
    (h : preSave C salt d = Except.ok (d1, effs)) :
    d1.id = d.id ∧ d1.name = d.name ∧ d1.email = d.email ∧ d1.age = d.age ∧
      d1.role = d.role ∧ d1.isNew = d.isNew ∧ d1.modified = d.modified := by
  rcases preSave_ok h with ⟨-, rfl, -⟩ | ⟨-, p, -, rfl, -⟩
  · exact ⟨rfl, rfl, rfl, rfl, rfl, rfl, rfl⟩
  · exact ⟨rfl, rfl, rfl, rfl, rfl, rfl, rfl⟩

/-- Inserting a document whose address a stored record already has fails. -/
theorem save_insert_dup (C : Crypto) (salt : Nat) (d : Doc) (w : World)
    (hn : d.isNew = true) (hd : ∃ u ∈ w.users, some u.email = d.email) :
    ∃ err w1, save C salt d w = (Except.error err, w1) := by
  cases hs : save C salt d w with
  | mk r w1 =>
    cases r with
    | error err => exact ⟨err, w1, rfl⟩
    | ok d2 =>
      exfalso
      obtain ⟨d1, effs, -, hp, -, -, -, -, hcase⟩ := save_ok hs
      have hf := preSave_fields hp
      obtain ⟨u, hu, he⟩ := hd
      rcases hcase with ⟨-, hfresh, -, -⟩ | ⟨hold, -⟩
      · apply hfresh u hu
        simp [Doc.toUser, hf.2.2.1, ← he]
      · rw [hf.2.2.2.2.2.1, hn] at hold
        exact absurd hold (by decide)

/-- Claim C7.  When `POST /register` passes its own checks and `save()` throws,
whatever the error, the answer is 500 with the fixed body `Error registering
user` and the records are those from before; `save()` does throw when a stored
record already has the address.  Every other handler answers a throwing store
operation with status 500 and its own fixed error body. -/
theorem store_failures (C : Crypto) (cfg : Config) (salt id now : Nat) (body : Body)
    (w : World) :
    (truthyS body.name = true → truthyS body.email = true → truthyS body.password = true →
      truthyN body.age = true → isValidEmailField body.email = true →
      (∀ err w1,
        save C salt (newUser w.freshId.1 body.name body.email body.password body.age
          (some (orS body.role "user"))) w.freshId.2 = (Except.error err, w1) →
        postRegister C salt body w = (⟨500, Payload.error "Error registering user"⟩, w1) ∧
        w1.users = w.users) ∧
      ((∃ u ∈ w.users, some u.email = body.email) →
        (postRegister C salt body w).1 = ⟨500, Payload.error "Error registering user"⟩ ∧
        (postRegister C salt body w).2.users = w.users)) ∧
    (truthyS body.name = true → truthyS body.email = true → truthyN body.age = true →
      isValidEmailField body.email = true →
      ∀ err w1,
        save C salt (newUser w.freshId.1 body.name body.email none body.age none)
          w.freshId.2 = (Except.error err, w1) →
        postUsers C salt body w = (⟨500, Payload.error "Error creating user"⟩, w1)) ∧
    (∀ err w1, find w = (Except.error err, w1) →
      getUsers w = (⟨500, Payload.error "Error fetching users"⟩, w1) ∧
      getUsersProtected w = (⟨500, Payload.error "Error fetching users"⟩, w1)) ∧
    (∀ err w1, findById id w = (Except.error err, w1) →
      getUser id w = (⟨500, Payload.error "Error fetching user"⟩, w1) ∧
      getUserProtected id w = (⟨500, Payload.error "Error fetching user"⟩, w1) ∧
      putUser C salt id body w = (⟨500, Payload.error "Error updating user"⟩, w1) ∧
      putUserProtected C salt id body w = (⟨500, Payload.error "Error updating user"⟩, w1)) ∧
    (∀ found w1 err w2, findById id w = (Except.ok (some found), w1) →
      (truthyS body.email && !isValidEmailField body.email) = false →
      save C salt (assignFields found.toDoc body) w1 = (Except.error err, w2) →
      putUser C salt id body w = (⟨500, Payload.error "Error updating user"⟩, w2) ∧
      putUserProtected C salt id body w = (⟨500, Payload.error "Error updating user"⟩, w2) ∧
      w2.users = w.users) ∧
    (∀ err w1, deleteOne id w = (Except.error err, w1) →
      deleteUser id w = (⟨500, Payload.error "Error deleting user"⟩, w1) ∧
      deleteUserProtected id w = (⟨500, Payload.error "Error deleting user"⟩, w1)) ∧
    (truthyS body.email = true → truthyS body.password = true →
      ∀ err w1, findOne (body.email.getD "") w = (Except.error err, w1) →
      postLogin C cfg now body w = (⟨500, Payload.error "Error logging in"⟩, w1)) := by
  refine ⟨?_, ?_, ?_, ?_, ?_, ?_, ?_⟩
  · intro h1 h2 h3 h4 h5
    have hreg : ∀ err w1,
        save C salt (newUser w.freshId.1 body.name body.email body.password body.age
          (some (orS body.role "user"))) w.freshId.2 = (Except.error err, w1) →
        postRegister C salt body w = (⟨500, Payload.error "Error registering user"⟩, w1) ∧
        w1.users = w.users := by
      intro err w1 hs
      refine ⟨?_, (save_error hs).1⟩
      simp [postRegister, h1, h2, h3, h4, h5, hs]
    refine ⟨hreg, ?_⟩
    intro hd
    obtain ⟨err, w1, hs⟩ := save_insert_dup C salt
      (newUser w.freshId.1 body.name body.email body.password body.age
        (some (orS body.role "user"))) w.freshId.2 rfl hd
    have := hreg err w1 hs
    rw [this.1]
    exact ⟨rfl, this.2⟩
  · intro h1 h2 h4 h5 err w1 hs
    simp [postUsers, h1, h2, h4, h5, hs]
  · intro err w1 hf
    simp [getUsers, getUsersProtected, hf]
  · intro err w1 hf
    simp [getUser, getUserProtected, putUser, putUserProtected, hf]
  · intro found w1 err w2 hf hc hs
    refine ⟨?_, ?_, ?_⟩
    · simp [putUser, hf, hc, hs]
    · simp [putUserProtected, hf, hc, hs]
    · rw [(save_error hs).1, (findById_ok hf).1]
  · intro err w1 hf
    simp [deleteUser, deleteUserProtected, hf]
  · intro h1 h2 err w1 hf
    simp [postLogin, h1, h2, hf]

/-- Claim C7 on concrete requests: a registration with a stored address, and
each handler when the store throws `ECONNRESET`. -/
theorem store_failures_witness :
    (postRegister demoCrypto 2 demoBody demoWorld =
        (⟨500, Payload.error "Error registering user"⟩,
          { demoWorld with
            nextId := 2, log := demoWorld.log ++ [Effect.hash "p", Effect.insert 1] }) ∧
      (postRegister demoCrypto 2 demoBody demoWorld).2.users = demoWorld.users) ∧
    postUsers demoCrypto 2 demoBody demoWorldDown =
      (⟨500, Payload.error "Error creating user"⟩, { demoWorldDown with nextId := 2 }) ∧
    getUsers demoWorldDown =
      (⟨500, Payload.error "Error fetching users"⟩,
        { demoWorld with log := demoWorld.log ++ [Effect.find] }) ∧
    putUser demoCrypto 2 0 demoBody demoWorldDown =
      (⟨500, Payload.error "Error updating user"⟩,
        { demoWorld with log := demoWorld.log ++ [Effect.findById 0] }) ∧
    putUser demoCrypto 2 0 { name := some "C" }
        { demoWorld with faults := [none, some "ECONNRESET"] } =
      (⟨500, Payload.error "Error updating user"⟩,
        { demoWorld with log := demoWorld.log ++ [Effect.findById 0, Effect.update 0] }) ∧
    deleteUser 0 demoWorldDown =
      (⟨500, Payload.error "Error deleting user"⟩,
        { demoWorld with log := demoWorld.log ++ [Effect.deleteOne 0] }) ∧
    postLogin demoCrypto demoConfig 7 demoBody demoWorldDown =
      (⟨500, Payload.error "Error logging in"⟩,
        { demoWorld with log := demoWorld.log ++ [Effect.findOne "a@b.com"] }) :=
  ⟨⟨((store_failures demoCrypto demoConfig 2 0 7 demoBody demoWorld).1
        (by decide) (by decide) (by decide) (by decide) (by decide)).1
        "E11000 duplicate key error"
        { demoWorld with
          nextId := 2, log := demoWorld.log ++ [Effect.hash "p", Effect.insert 1] }
        rfl |>.1,
     (((store_failures demoCrypto demoConfig 2 0 7 demoBody demoWorld).1
        (by decide) (by decide) (by decide) (by decide) (by decide)).2
        ⟨demoUser, by decide, rfl⟩).2⟩,
   (store_failures demoCrypto demoConfig 2 0 7 demoBody demoWorldDown).2.1
      (by decide) (by decide) (by decide) (by decide)
      "Path password is required." { demoWorldDown with nextId := 2 } rfl,
   ((store_failures demoCrypto demoConfig 2 0 7 demoBody demoWorldDown).2.2.1
      "ECONNRESET" { demoWorld with log := demoWorld.log ++ [Effect.find] } rfl).1,
   ((store_failures demoCrypto demoConfig 2 0 7 demoBody demoWorldDown).2.2.2.1
      "ECONNRESET" { demoWorld with log := demoWorld.log ++ [Effect.findById 0] } rfl).2.2.1,
   ((store_failures demoCrypto demoConfig 2 0 7 { name := some "C" }
      { demoWorld with faults := [none, some "ECONNRESET"] }).2.2.2.2.1
      demoUser
      { demoWorld with
        faults := [some "ECONNRESET"], log := demoWorld.log ++ [Effect.findById 0] }
      "ECONNRESET"
      { demoWorld with log := demoWorld.log ++ [Effect.findById 0, Effect.update 0] }
      rfl (by decide) rfl).1,
   ((store_failures demoCrypto demoConfig 2 0 7 demoBody demoWorldDown).2.2.2.2.2.1
      "ECONNRESET" { demoWorld with log := demoWorld.log ++ [Effect.deleteOne 0] } rfl).1,
   (store_failures demoCrypto demoConfig 2 0 7 demoBody demoWorldDown).2.2.2.2.2.2
      (by decide) (by decide) "ECONNRESET"
      { demoWorld with log := demoWorld.log ++ [Effect.findOne "a@b.com"] } rfl⟩

/-! ## The gates -/

theorem authenticate_error {C : Crypto} {cfg : Config} {req : Request} {resp : Response}
    (h : authenticate C cfg req = Except.error resp) :
    resp = ⟨401, Payload.error "Unauthenticated"⟩ := by
  unfold authenticate at h
  split at h
  · simpa using h.symm
  · split at h
    · simpa using h.symm
    · simp at h

/-- Claim C2.  Each of the eight registrations of `GET /users`, `GET /users/:id`,
`PUT /users/:id` and `DELETE /users/:id` (two per path) answers a request the
authentication gate rejects with the 401 `Unauthenticated` failure, without
running its handler and with the state, log of store operations included, as it
was; so does the application as a whole.  The gate rejects a request without a
bearer header, one whose token has expired and one whose signature does not
match the secret. -/
theorem authentication_gating (C : Crypto) (cfg : Config) (req : Request) (w : World) :
    (∀ r ∈ routes, r.isUserRoute = true → ∀ resp, authenticate C cfg req = Except.error resp →
      runRoute C cfg r req w = ⟨⟨401, Payload.error "Unauthenticated"⟩, w, false⟩) ∧
    (∀ resp, authenticate C cfg req = Except.error resp →
      ((req.method = Method.GET ∧ req.path = Path.users) ∨
        ((req.method = Method.GET ∨ req.method = Method.PUT ∨ req.method = Method.DELETE) ∧
          ∃ id, req.path = Path.usersId id)) →
      app C cfg req w = ⟨⟨401, Payload.error "Unauthenticated"⟩, w, false⟩) ∧
    (req.authorization = none →
      authenticate C cfg req = Except.error ⟨401, Payload.error "Unauthenticated"⟩) ∧
    (∀ t, req.authorization = some (Presented.token t) → t.exp ≤ req.now →
      authenticate C cfg req = Except.error ⟨401, Payload.error "Unauthenticated"⟩) ∧
    (∀ t, req.authorization = some (Presented.token t) →
      t.sig ≠ C.mac cfg.JWT_SECRET t.id t.role t.iat t.exp →
      authenticate C cfg req = Except.error ⟨401, Payload.error "Unauthenticated"⟩) ∧
    (routes.filter Route.isUserRoute).length = 8 := by
  have route_level : ∀ r ∈ routes, r.isUserRoute = true → ∀ resp,
      authenticate C cfg req = Except.error resp →
      runRoute C cfg r req w = ⟨⟨401, Payload.error "Unauthenticated"⟩, w, false⟩ := by
    intro r hr hu resp ha
    have hresp := authenticate_error ha
    subst hresp
    simp only [routes, List.mem_cons, List.mem_singleton, List.not_mem_nil, or_false] at hr
    rcases hr with rfl | rfl | rfl | rfl | rfl | rfl | rfl | rfl | rfl | rfl | rfl | rfl | rfl
    all_goals first
      | (exfalso; revert hu; decide)
      | simp [runRoute, runGates, ha]
  refine ⟨route_level, ?_, ?_, ?_, ?_, by rfl⟩
  · intro resp ha hreq
    have hresp := authenticate_error ha
    subst hresp
    rcases hreq with ⟨hm, hp⟩ | ⟨hm | hm | hm, id, hp⟩ <;>
      simp [app, routes, Route.accepts, hm, hp, Path.pattern, runRoute, runGates, ha]
  · intro h
    simp [authenticate, h]
  · intro t h hexp
    unfold authenticate tokenVerify
    simp only [h]
    by_cases hs : (t.sig != C.mac cfg.JWT_SECRET t.id t.role t.iat t.exp) = true
    · simp [hs]
    · simp [hs, hexp]
  · intro t h hsig
    simp [authenticate, tokenVerify, h, hsig]

/-- Claim C2 on concrete requests: `GET /users` without a header, `DELETE
/users/0` with a token past its expiry, and `PUT /users/0` with a token signed
with another secret, the last under the second registration of the path. -/
theorem authentication_gating_witness :
    app demoCrypto demoConfig { method := Method.GET, path := Path.users } demoWorld =
      ⟨⟨401, Payload.error "Unauthenticated"⟩, demoWorld, false⟩ ∧
    app demoCrypto demoConfig
        { method := Method.DELETE, path := Path.usersId 0,
          authorization := some (Presented.token demoAdminToken), now := 3607 } demoWorld =
      ⟨⟨401, Payload.error "Unauthenticated"⟩, demoWorld, false⟩ ∧
    runRoute demoCrypto demoConfig
        ⟨Method.PUT, Pattern.usersId, [authenticate],
          fun C _ req w => putUserProtected C req.salt req.paramId req.body w⟩
        { method := Method.PUT, path := Path.usersId 0, body := { name := some "Z" },
          authorization := some (Presented.token
            (jwtSign demoCrypto 1 "admin" "another" 3600 7)), now := 8 } demoWorld =
      ⟨⟨401, Payload.error "Unauthenticated"⟩, demoWorld, false⟩ :=
  ⟨(authentication_gating demoCrypto demoConfig
      { method := Method.GET, path := Path.users } demoWorld).2.1
      ⟨401, Payload.error "Unauthenticated"⟩
      ((authentication_gating demoCrypto demoConfig
        { method := Method.GET, path := Path.users } demoWorld).2.2.1 rfl)
      (Or.inl ⟨rfl, rfl⟩),
   (authentication_gating demoCrypto demoConfig
      { method := Method.DELETE, path := Path.usersId 0,
        authorization := some (Presented.token demoAdminToken), now := 3607 } demoWorld).2.1
      ⟨401, Payload.error "Unauthenticated"⟩
      ((authentication_gating demoCrypto demoConfig
        { method := Method.DELETE, path := Path.usersId 0,
          authorization := some (Presented.token demoAdminToken), now := 3607 }
        demoWorld).2.2.2.1 demoAdminToken rfl (by decide))
      (Or.inr ⟨Or.inr (Or.inr rfl), 0, rfl⟩),
   (authentication_gating demoCrypto demoConfig
      { method := Method.PUT, path := Path.usersId 0, body := { name := some "Z" },
        authorization := some (Presented.token
          (jwtSign demoCrypto 1 "admin" "another" 3600 7)), now := 8 } demoWorld).1
      ⟨Method.PUT, Pattern.usersId, [authenticate],
        fun C _ req w => putUserProtected C req.salt req.paramId req.body w⟩
      (by simp [routes]) rfl ⟨401, Payload.error "Unauthenticated"⟩
      ((authentication_gating demoCrypto demoConfig
        { method := Method.PUT, path := Path.usersId 0, body := { name := some "Z" },
          authorization := some (Presented.token
            (jwtSign demoCrypto 1 "admin" "another" 3600 7)), now := 8 }
        demoWorld).2.2.2.2.1 (jwtSign demoCrypto 1 "admin" "another" 3600 7) rfl
        (by decide))⟩

/-- Claim C1.  For a request the authentication gate passes with identity
`identity`: `GET /admin` runs its handler, which answers `Welcome, admin`, exactly
when the role is `admin`, and `GET /owner` runs its handler exactly when the role
is `owner`; for any other role the answer is the 403 `Forbidden` failure and the
handler does not run. -/
theorem role_gating (C : Crypto) (cfg : Config) (req : Request) (w : World)
    (identity : Identity)
    (hauth : authenticate C cfg req = Except.ok { req with user := some identity })
    (hm : req.method = Method.GET) :
    (req.path = Path.admin →
      ((app C cfg req w).handlerInvoked = true ↔ identity.role = "admin") ∧
      (identity.role = "admin" →
        app C cfg req w = ⟨⟨200, Payload.message "Welcome, admin"⟩, w, true⟩) ∧
      (identity.role ≠ "admin" →
        app C cfg req w = ⟨⟨403, Payload.error "Forbidden"⟩, w, false⟩)) ∧
    (req.path = Path.owner →
      ((app C cfg req w).handlerInvoked = true ↔ identity.role = "owner") ∧
      (identity.role = "owner" →
        app C cfg req w = ⟨⟨200, Payload.message "Welcome, owner"⟩, w, true⟩) ∧
      (identity.role ≠ "owner" →
        app C cfg req w = ⟨⟨403, Payload.error "Forbidden"⟩, w, false⟩)) := by
  constructor
  · intro hp
    have hyes : identity.role = "admin" →
        app C cfg req w = ⟨⟨200, Payload.message "Welcome, admin"⟩, w, true⟩ := by
      intro hr
      simp [app, routes, Route.accepts, hm, hp, Path.pattern, runRoute, runGates, hauth,
        authorize, hr, getAdmin]
    have hno : identity.role ≠ "admin" →
        app C cfg req w = ⟨⟨403, Payload.error "Forbidden"⟩, w, false⟩ := by
      intro hr
      simp [app, routes, Route.accepts, hm, hp, Path.pattern, runRoute, runGates, hauth,
        authorize, hr]
    refine ⟨?_, hyes, hno⟩
    by_cases hr : identity.role = "admin"
    · simp [hyes hr, hr]
    · simp [hno hr, hr]
  · intro hp
    have hyes : identity.role = "owner" →
        app C cfg req w = ⟨⟨200, Payload.message "Welcome, owner"⟩, w, true⟩ := by
      intro hr
      simp [app, routes, Route.accepts, hm, hp, Path.pattern, runRoute, runGates, hauth,
        authorize, hr, getOwner]
    have hno : identity.role ≠ "owner" →
        app C cfg req w = ⟨⟨403, Payload.error "Forbidden"⟩, w, false⟩ := by
      intro hr
      simp [app, routes, Route.accepts, hm, hp, Path.pattern, runRoute, runGates, hauth,
        authorize, hr]
    refine ⟨?_, hyes, hno⟩
    by_cases hr : identity.role = "owner"
    · simp [hyes hr, hr]
    · simp [hno hr, hr]

/-- Claim C1 on concrete requests: the token of a `user` on `GET /admin` and the
token of an `admin` on `GET /owner` are answered 403, the token of an `admin` on
`GET /admin` is answered `Welcome, admin`. -/
theorem role_gating_witness :
    app demoCrypto demoConfig
        { method := Method.GET, path := Path.admin,
          authorization := some (Presented.token demoUserToken), now := 8 } demoWorld2 =
      ⟨⟨403, Payload.error "Forbidden"⟩, demoWorld2, false⟩ ∧
    app demoCrypto demoConfig
        { method := Method.GET, path := Path.owner,
          authorization := some (Presented.token demoAdminToken), now := 8 } demoWorld2 =
      ⟨⟨403, Payload.error "Forbidden"⟩, demoWorld2, false⟩ ∧
    app demoCrypto demoConfig
        { method := Method.GET, path := Path.admin,
          authorization := some (Presented.token demoAdminToken), now := 8 } demoWorld2 =
      ⟨⟨200, Payload.message "Welcome, admin"⟩, demoWorld2, true⟩ :=
  ⟨((role_gating demoCrypto demoConfig
      { method := Method.GET, path := Path.admin,
        authorization := some (Presented.token demoUserToken), now := 8 } demoWorld2
      ⟨0, "user"⟩ rfl rfl).1 rfl).2.2 (by decide),
   ((role_gating demoCrypto demoConfig
      { method := Method.GET, path := Path.owner,
        authorization := some (Presented.token demoAdminToken), now := 8 } demoWorld2
      ⟨1, "admin"⟩ rfl rfl).2 rfl).2.2 (by decide),
   ((role_gating demoCrypto demoConfig
      { method := Method.GET, path := Path.admin,
        authorization := some (Presented.token demoAdminToken), now := 8 } demoWorld2
      ⟨1, "admin"⟩ rfl rfl).1 rfl).2.1 rfl⟩

/-! ## The invariant of the collection -/

end UserApi
